import Mathlib

/-!
Verification of the mcp-hello-world server (src/src/index.ts plain-text variant,
and the structured variant of the same server) against its specification.

The handlers are pure functions of their validated argument and of the remote
model gateway's behavior; we embed the gateway as a function parameter
`invoke : String → Except ThrownValue _`, covering every gateway behavior
(any successful response shape, or any thrown value).
-/

namespace MCPHelloWorld

/-- A content block of an MCP reply. The source builds blocks as objects with
`type: "text"` and a `text` string; "text" is the only kind the server produces,
other kinds are reserved. -/
inductive ContentBlock where
  | text (payload : String)
  deriving DecidableEq, Repr

/-- The reply envelope every handler returns: an ordered sequence of content
blocks (`return « content: [...] »` in the source). -/
structure InvocationResult where
  content : List ContentBlock
  deriving DecidableEq, Repr

/-- A JavaScript value caught by a `catch (error)` clause: either an `Error`
instance carrying a human-readable `message`, or any other thrown value. -/
inductive ThrownValue where
  | errorObj (message : String)
  | nonErrorValue
  deriving DecidableEq, Repr

/-- `error instanceof Error ? error.message : "Unknown error occurred"`
(the `errorMessage` local in both catch blocks). -/
def errorMessageOf : ThrownValue → String
  | .errorObj m => m
  | .nonErrorValue => "Unknown error occurred"

/-- One block of a model message's content array. A block carries a `type` tag;
the handler keeps only blocks whose tag is "text" and reads their `text` field,
so we distinguish text blocks from every other kind (tagged by its type string). -/
inductive MessageBlock where
  | textBlock (text : String)
  | otherBlock (kind : String)
  deriving DecidableEq, Repr

/-- The filter predicate `block.type === "text"`. -/
def blockIsText : MessageBlock → Bool
  | .textBlock _ => true
  | .otherBlock _ => false

/-- The `.text` field read after the type-guard filter (only ever applied to
text blocks; other blocks have no such field, modelled as ""). -/
def blockTextField : MessageBlock → String
  | .textBlock t => t
  | .otherBlock _ => ""

/-- `response.content` of a model reply: either a single string or an array of
typed content blocks. -/
inductive MessageContent where
  | str (s : String)
  | blocks (bs : List MessageBlock)
  deriving DecidableEq, Repr

/-- JavaScript `String.prototype.trim` whitespace: WhiteSpace and LineTerminator
code points. -/
def isJsWhitespaceChar (c : Char) : Bool :=
  c == ' ' || c == '\t' || c == '\n' || c == '\r' || c == '\x0b' || c == '\x0c' ||
  c == '\u00a0' || c == '\u1680' ||
  (0x2000 ≤ c.toNat && c.toNat ≤ 0x200a) ||
  c == '\u2028' || c == '\u2029' || c == '\u202f' || c == '\u205f' ||
  c == '\u3000' || c == '\ufeff'

/-- JavaScript `String.prototype.trim`: remove leading and trailing whitespace. -/
def jsTrim (s : String) : String :=
  String.mk (((s.data.dropWhile isJsWhitespaceChar).reverse.dropWhile
    isJsWhitespaceChar).reverse)

/-- The "hello" tool handler (src/src/index.ts lines 196-206): no parameters,
returns one text block reading "world". -/
def hello (_args : Unit) : InvocationResult :=
  ⟨[ContentBlock.text "world"]⟩

/-- The prompt template of the plain-text polyglot handler
(src/src/index.ts line 241), with the literal greeting interpolated. -/
def polyglotPrompt (greeting : String) : String :=
  "Given the greeting \"" ++ greeting ++
    "\", identify its language and reply with \"world\" translated into that same language. One word only. Examples: hello → world, bonjour → monde, hola → mundo"

/-- The `responseText` extraction (src/src/index.ts lines 248-254):
a string response is used as-is; an array of blocks is filtered to the
text-typed blocks, mapped to their text, and joined with "". -/
def responseTextOf : MessageContent → String
  | .str s => s
  | .blocks bs => String.join ((bs.filter blockIsText).map blockTextField)

/-- The plain-text "polyglot" tool handler (src/src/index.ts lines 229-266).
The gateway call `model.invoke(prompt)` is the parameter `invoke`; any value it
throws is the `Except.error` case, caught by the handler's try/catch. -/
def polyglot (greeting : String)
    (invoke : String → Except ThrownValue MessageContent) : InvocationResult :=
  let prompt := polyglotPrompt greeting
  match invoke prompt with
  | Except.ok response =>
      let responseText := responseTextOf response
      ⟨[ContentBlock.text (jsTrim responseText)]⟩
  | Except.error e =>
      ⟨[ContentBlock.text ("Error calling LLM: " ++ errorMessageOf e)]⟩

/-- The structured response type inferred from `polyglotResponseSchema`
(structured variant, lines 36-47): four required string fields, in schema
declaration order. -/
structure PolyglotResponse where
  detectedLanguage : String
  greeting : String
  worldTranslation : String
  languageFamily : String
  deriving DecidableEq, Repr

/-- The prompt template of the structured polyglot handler
(structured variant, lines 117-122), with the literal greeting interpolated. -/
def polyglotStructuredPrompt (greeting : String) : String :=
  "Analyze this greeting: \"" ++ greeting ++
    "\"\n\nDetermine:\n1. What language is this greeting from?\n2. What language family does it belong to (e.g., Romance, Germanic, Slavic, Japonic)?\n3. How do you say \"world\" in that language?"

/-- Hexadecimal digit character (lowercase), as produced by `JSON.stringify`
control-character escapes. -/
def hexDigitChar (n : Nat) : Char :=
  if n < 10 then Char.ofNat (48 + n) else Char.ofNat (87 + n)

/-- Four-digit hexadecimal rendering of a code point below 0x10000. -/
def hex4 (n : Nat) : String :=
  String.mk [hexDigitChar (n / 4096 % 16), hexDigitChar (n / 256 % 16),
    hexDigitChar (n / 16 % 16), hexDigitChar (n % 16)]

/-- `JSON.stringify` escaping of one character inside a JSON string literal. -/
def jsonEscapeChar (c : Char) : String :=
  if c = '"' then "\\\""
  else if c = '\\' then "\\\\"
  else if c = '\x08' then "\\b"
  else if c = '\t' then "\\t"
  else if c = '\n' then "\\n"
  else if c = '\x0c' then "\\f"
  else if c = '\r' then "\\r"
  else if c.toNat < 32 then "\\u" ++ hex4 c.toNat
  else String.singleton c

/-- A JSON string literal for `s`, as `JSON.stringify` renders it. -/
def jsonQuote (s : String) : String :=
  "\"" ++ String.join (s.data.map jsonEscapeChar) ++ "\""

/-- `JSON.stringify(response, null, 2)` (structured variant, line 136) for a
`PolyglotResponse`: a two-space-indented object whose members appear in the
schema's declaration order. -/
def jsonStringifyPolyglotResponse (r : PolyglotResponse) : String :=
  "\x7b\n" ++
  "  " ++ jsonQuote "detectedLanguage" ++ ": " ++ jsonQuote r.detectedLanguage ++ ",\n" ++
  "  " ++ jsonQuote "greeting" ++ ": " ++ jsonQuote r.greeting ++ ",\n" ++
  "  " ++ jsonQuote "worldTranslation" ++ ": " ++ jsonQuote r.worldTranslation ++ ",\n" ++
  "  " ++ jsonQuote "languageFamily" ++ ": " ++ jsonQuote r.languageFamily ++ "\n" ++
  "\x7d"

/-- The structured "polyglot" tool handler (structured variant, lines 98-145).
The gateway call `structuredModel.invoke(prompt)` is the parameter `invoke`:
on success it yields a schema-validated `PolyglotResponse`; any value it throws
is the `Except.error` case, caught by the handler's try/catch. -/
def polyglotStructured (greeting : String)
    (invoke : String → Except ThrownValue PolyglotResponse) : InvocationResult :=
  match invoke (polyglotStructuredPrompt greeting) with
  | Except.ok response =>
      ⟨[ContentBlock.text (jsonStringifyPolyglotResponse response)]⟩
  | Except.error e =>
      ⟨[ContentBlock.text ("Error calling LLM: " ++ errorMessageOf e)]⟩

/-- JSON insignificant whitespace, skipped by `JSON.parse`. -/
def skipJsonWs (cs : List Char) : List Char :=
  cs.dropWhile (fun c => c == ' ' || c == '\t' || c == '\n' || c == '\r')

/-- Numeric value of a hexadecimal digit character. -/
def hexVal (c : Char) : Option Nat :=
  if '0' ≤ c ∧ c ≤ '9' then some (c.toNat - 48)
  else if 'a' ≤ c ∧ c ≤ 'f' then some (c.toNat - 87)
  else if 'A' ≤ c ∧ c ≤ 'F' then some (c.toNat - 55)
  else none

/-- `JSON.parse` of the body of a string literal (after the opening quote):
returns the decoded characters and the input following the closing quote.
Raw control characters are rejected, escape sequences are decoded. -/
def parseStringBody : List Char → Option (List Char × List Char)
  | [] => none
  | '"' :: rest => some ([], rest)
  | '\\' :: '"' :: rest => (parseStringBody rest).map (fun p => ('"' :: p.1, p.2))
  | '\\' :: '\\' :: rest => (parseStringBody rest).map (fun p => ('\\' :: p.1, p.2))
  | '\\' :: '/' :: rest => (parseStringBody rest).map (fun p => ('/' :: p.1, p.2))
  | '\\' :: 'b' :: rest => (parseStringBody rest).map (fun p => ('\x08' :: p.1, p.2))
  | '\\' :: 'f' :: rest => (parseStringBody rest).map (fun p => ('\x0c' :: p.1, p.2))
  | '\\' :: 'n' :: rest => (parseStringBody rest).map (fun p => ('\n' :: p.1, p.2))
  | '\\' :: 'r' :: rest => (parseStringBody rest).map (fun p => ('\r' :: p.1, p.2))
  | '\\' :: 't' :: rest => (parseStringBody rest).map (fun p => ('\t' :: p.1, p.2))
  | '\\' :: 'u' :: h1 :: h2 :: h3 :: h4 :: rest =>
      match hexVal h1, hexVal h2, hexVal h3, hexVal h4 with
      | some a, some b, some c, some d =>
          (parseStringBody rest).map
            (fun p => (Char.ofNat (a * 4096 + b * 256 + c * 16 + d) :: p.1, p.2))
      | _, _, _, _ => none
  | '\\' :: _ => none
  | c :: rest =>
      if c.toNat < 32 then none
      else (parseStringBody rest).map (fun p => (c :: p.1, p.2))

/-- One `"key": "value"` member of a JSON object whose values are strings. -/
def parseMember (cs : List Char) : Option ((String × String) × List Char) :=
  match skipJsonWs cs with
  | '"' :: rest =>
      match parseStringBody rest with
      | some (key, rest1) =>
          match skipJsonWs rest1 with
          | ':' :: rest2 =>
              match skipJsonWs rest2 with
              | '"' :: rest3 =>
                  match parseStringBody rest3 with
                  | some (val, rest4) => some ((String.mk key, String.mk val), rest4)
                  | none => none
              | _ => none
          | _ => none
      | none => none
  | _ => none

/-- The comma-separated members of a JSON object, up to the closing brace.
`fuel` bounds the number of members (each member consumes input, so the input
length is always enough fuel). -/
def parseMembersAux : Nat → List Char → Option (List (String × String) × List Char)
  | 0, _ => none
  | fuel + 1, cs =>
      match parseMember cs with
      | some (kv, rest) =>
          match skipJsonWs rest with
          | ',' :: rest2 =>
              (parseMembersAux fuel rest2).map (fun p => (kv :: p.1, p.2))
          | '\x7d' :: rest2 => some ([kv], rest2)
          | _ => none
      | none => none

/-- `JSON.parse` restricted to a single object all of whose values are string
literals (the only shape `jsonStringifyPolyglotResponse` produces): yields the
member list in textual order, or `none` on any syntax error or trailing input. -/
def jsonParseStringObject (s : String) : Option (List (String × String)) :=
  match skipJsonWs s.data with
  | '\x7b' :: rest =>
      match skipJsonWs rest with
      | '\x7d' :: rest2 => if (skipJsonWs rest2).isEmpty then some [] else none
      | _ =>
          match parseMembersAux (s.length + 1) rest with
          | some (kvs, rest2) => if (skipJsonWs rest2).isEmpty then some kvs else none
          | none => none
  | _ => none

/-- Reading a field of a parsed JSON object (JavaScript property semantics:
with duplicate keys the last occurrence wins). -/
def jsObjGet (kvs : List (String × String)) (key : String) : Option String :=
  kvs.reverse.lookup key

/-- Parsing a serialized reply back into a `PolyglotResponse`: `JSON.parse`
followed by reading the four schema fields. -/
def parsePolyglotJson (s : String) : Option PolyglotResponse := do
  let kvs ← jsonParseStringObject s
  let dl ← jsObjGet kvs "detectedLanguage"
  let g ← jsObjGet kvs "greeting"
  let wt ← jsObjGet kvs "worldTranslation"
  let lf ← jsObjGet kvs "languageFamily"
  some ⟨dl, g, wt, lf⟩

/-- A JSON value, the shape of a parsed model reply presented to schema
validation. -/
inductive Json where
  | str (s : String)
  | num (n : Int)
  | jbool (b : Bool)
  | null
  | arr (elems : List Json)
  | obj (fields : List (String × Json))

/-- Field access on a JSON object value. -/
def jsonObjLookup (fields : List (String × Json)) (key : String) : Option Json :=
  fields.lookup key

/-- The check `z.string()` performs on a field value. -/
def jsonAsString : Json → Option String
  | .str s => some s
  | _ => none

/-- The validation `polyglotResponseSchema` performs (structured variant,
lines 36-41): a Zod `z.object` of four `z.string()` fields. The value must be
an object carrying every declared field with a string value; unknown keys are
ignored; anything else fails. -/
def polyglotResponseSchemaCheck (j : Json) : Option PolyglotResponse :=
  match j with
  | .obj fields => do
      let dl ← jsonObjLookup fields "detectedLanguage" >>= jsonAsString
      let g ← jsonObjLookup fields "greeting" >>= jsonAsString
      let wt ← jsonObjLookup fields "worldTranslation" >>= jsonAsString
      let lf ← jsonObjLookup fields "languageFamily" >>= jsonAsString
      some ⟨dl, g, wt, lf⟩
  | _ => none

/-- Modelled from the spec: the gateway's `completeStructured`
(`withStructuredOutput`, an external LangChain feature, not code of this
repository) validates the parsed model output against
`polyglotResponseSchema` and raises SchemaValidationFailure when the output is
parseable but does not satisfy the schema; the raised error is what the
handler's catch clause receives. -/
def completeStructured (modelOutput : Json) : Except ThrownValue PolyglotResponse :=
  match polyglotResponseSchemaCheck modelOutput with
  | some r => Except.ok r
  | none => Except.error (ThrownValue.errorObj "SchemaValidationFailure")

/-- An output stream of the server process. -/
inductive Channel where
  | stdout
  | stderr
  deriving DecidableEq, Repr

/-- One line written to an output stream. -/
structure LogEvent where
  channel : Channel
  message : String

/-- `console.error` writes its message to the standard error stream. -/
def consoleError (msg : String) : LogEvent :=
  ⟨Channel.stderr, msg⟩

/-- The stream the stdio transport uses for protocol replies: stdout
(src/src/index.ts line 282, "stdout is reserved for MCP protocol messages"). -/
def protocolReplyChannel : Channel :=
  Channel.stdout

/-- The log events `main` emits on successful startup (src/src/index.ts
lines 277-284): a single "server is running" notice via `console.error`. -/
def mainStartupLog : List LogEvent :=
  [consoleError "Hello World MCP server is running"]

/-- The gateway stub of the structured round-trip test case. -/
def frenchStub : PolyglotResponse :=
  ⟨"French", "bonjour", "monde", "Romance"⟩

/-- A gateway response whose greeting field is not the input greeting
"bonjour": schema validation accepts it, since every field is a string. -/
def nonEchoStub : PolyglotResponse :=
  ⟨"Spanish", "hola", "mundo", "Romance"⟩

/-- A parsed model reply missing the `languageFamily` field. -/
def missingFamilyFields : List (String × Json) :=
  [("detectedLanguage", Json.str "French"),
   ("greeting", Json.str "bonjour"),
   ("worldTranslation", Json.str "monde")]

/-- A parsed model reply missing the `greeting` field. -/
def missingGreetingFields : List (String × Json) :=
  [("detectedLanguage", Json.str "French"),
   ("worldTranslation", Json.str "monde"),
   ("languageFamily", Json.str "Romance")]

/-- The text of a block when it is a text block: used to state the extraction
as a single ordered pass that keeps text-kind blocks and drops the rest. -/
def textOfBlock : MessageBlock → Option String
  | .textBlock t => some t
  | .otherBlock _ => none

theorem filter_text_map_eq_filterMap (bs : List MessageBlock) :
    (bs.filter blockIsText).map blockTextField = bs.filterMap textOfBlock := by
  induction bs with
  | nil => rfl
  | cons b bs ih =>
      cases b <;>
        simp [List.filter_cons, List.filterMap_cons, blockIsText, blockTextField,
          textOfBlock, ih]

/-- C1: For every greeting string and every gateway behavior — a successful
response of any shape, or any raised error, in either variant — the polyglot
handler returns a well-formed InvocationResult containing exactly one text
content block; being a total function into InvocationResult, it never lets an
exception escape to the Registry/channel boundary. -/
theorem polyglot_always_one_text_block (greeting : String)
    (invoke : String → Except ThrownValue MessageContent)
    (invokeS : String → Except ThrownValue PolyglotResponse) :
    (∃ s, polyglot greeting invoke = ⟨[ContentBlock.text s]⟩) ∧
    (∃ s, polyglotStructured greeting invokeS = ⟨[ContentBlock.text s]⟩) := by
  constructor
  · cases h : invoke (polyglotPrompt greeting) with
    | ok r => exact ⟨jsTrim (responseTextOf r), by simp [polyglot, h]⟩
    | error e =>
        exact ⟨"Error calling LLM: " ++ errorMessageOf e, by simp [polyglot, h]⟩
  · cases h : invokeS (polyglotStructuredPrompt greeting) with
    | ok r => exact ⟨jsonStringifyPolyglotResponse r, by simp [polyglotStructured, h]⟩
    | error e =>
        exact ⟨"Error calling LLM: " ++ errorMessageOf e,
          by simp [polyglotStructured, h]⟩

/-- C2: For every error raised by the gateway call inside the polyglot handler
(either variant), the reply contains exactly one text block whose payload is
"Error calling LLM: " followed by the error's message when the thrown value is
an Error, and "Error calling LLM: Unknown error occurred" otherwise. -/
theorem polyglot_error_text (greeting m : String)
    (invoke : String → Except ThrownValue MessageContent)
    (invokeS : String → Except ThrownValue PolyglotResponse) :
    (invoke (polyglotPrompt greeting) = Except.error (ThrownValue.errorObj m) →
      polyglot greeting invoke =
        ⟨[ContentBlock.text ("Error calling LLM: " ++ m)]⟩) ∧
    (invoke (polyglotPrompt greeting) = Except.error ThrownValue.nonErrorValue →
      polyglot greeting invoke =
        ⟨[ContentBlock.text "Error calling LLM: Unknown error occurred"]⟩) ∧
    (invokeS (polyglotStructuredPrompt greeting) =
        Except.error (ThrownValue.errorObj m) →
      polyglotStructured greeting invokeS =
        ⟨[ContentBlock.text ("Error calling LLM: " ++ m)]⟩) ∧
    (invokeS (polyglotStructuredPrompt greeting) =
        Except.error ThrownValue.nonErrorValue →
      polyglotStructured greeting invokeS =
        ⟨[ContentBlock.text "Error calling LLM: Unknown error occurred"]⟩) := by
  refine ⟨fun h => ?_, fun h => ?_, fun h => ?_, fun h => ?_⟩ <;>
    simp [polyglot, polyglotStructured, h, errorMessageOf]

/-- Witness for C2: concrete gateways raising TransportFailure("network down")
as an Error and raising a bare non-Error value, in both variants. -/
theorem polyglot_error_text_case :
    polyglot "bonjour" (fun _ => Except.error (ThrownValue.errorObj "network down")) =
      ⟨[ContentBlock.text "Error calling LLM: network down"]⟩ ∧
    polyglot "bonjour" (fun _ => Except.error ThrownValue.nonErrorValue) =
      ⟨[ContentBlock.text "Error calling LLM: Unknown error occurred"]⟩ ∧
    polyglotStructured "bonjour"
        (fun _ => Except.error (ThrownValue.errorObj "network down")) =
      ⟨[ContentBlock.text "Error calling LLM: network down"]⟩ ∧
    polyglotStructured "bonjour" (fun _ => Except.error ThrownValue.nonErrorValue) =
      ⟨[ContentBlock.text "Error calling LLM: Unknown error occurred"]⟩ :=
  ⟨(polyglot_error_text "bonjour" "network down"
      (fun _ => Except.error (ThrownValue.errorObj "network down"))
      (fun _ => Except.error (ThrownValue.errorObj "network down"))).1 rfl,
   (polyglot_error_text "bonjour" "network down"
      (fun _ => Except.error ThrownValue.nonErrorValue)
      (fun _ => Except.error ThrownValue.nonErrorValue)).2.1 rfl,
   (polyglot_error_text "bonjour" "network down"
      (fun _ => Except.error (ThrownValue.errorObj "network down"))
      (fun _ => Except.error (ThrownValue.errorObj "network down"))).2.2.1 rfl,
   (polyglot_error_text "bonjour" "network down"
      (fun _ => Except.error ThrownValue.nonErrorValue)
      (fun _ => Except.error ThrownValue.nonErrorValue)).2.2.2 rfl⟩

/-- C3 counterexample: a single-string gateway response is NOT used verbatim as
the payload — the handler trims it in the string branch too. With the stub
response " monde \n" delivered as a single string, the payload is "monde",
not the verbatim " monde \n". -/
theorem plain_string_not_verbatim :
    polyglot "bonjour" (fun _ => Except.ok (MessageContent.str " monde \n")) =
      ⟨[ContentBlock.text "monde"]⟩ ∧
    ("monde" : String) ≠ " monde \n" :=
  ⟨by decide, by decide⟩

/-- C3 (amended): in the plain-text variant, a successful single-string
response is used verbatim and then trimmed of surrounding whitespace; a
successful block-sequence response yields the concatenation of exactly the
text-kind blocks, in their original order (non-text blocks dropped), trimmed
of surrounding whitespace. -/
theorem plain_extraction_trimmed (greeting : String)
    (invoke : String → Except ThrownValue MessageContent) :
    (∀ s, invoke (polyglotPrompt greeting) = Except.ok (MessageContent.str s) →
      polyglot greeting invoke = ⟨[ContentBlock.text (jsTrim s)]⟩) ∧
    (∀ bs, invoke (polyglotPrompt greeting) = Except.ok (MessageContent.blocks bs) →
      polyglot greeting invoke =
        ⟨[ContentBlock.text (jsTrim (String.join (bs.filterMap textOfBlock)))]⟩) := by
  constructor
  · intro s h
    simp [polyglot, h, responseTextOf]
  · intro bs h
    simp [polyglot, h, responseTextOf, filter_text_map_eq_filterMap]

/-- Witness for C3 (amended): block-sequence stub whose text blocks concatenate
to " monde \n" (with a non-text block interleaved) yields the payload "monde". -/
theorem plain_extraction_trimmed_case :
    polyglot "bonjour" (fun _ => Except.ok (MessageContent.blocks
        [MessageBlock.textBlock " monde ", MessageBlock.otherBlock "tool_use",
         MessageBlock.textBlock "\n"])) =
      ⟨[ContentBlock.text "monde"]⟩ :=
  ((plain_extraction_trimmed "bonjour" _).2
      [MessageBlock.textBlock " monde ", MessageBlock.otherBlock "tool_use",
       MessageBlock.textBlock "\n"] rfl).trans (by decide)

/-- C4: in the structured variant, the stub response
(detectedLanguage "French", greeting "bonjour", worldTranslation "monde",
languageFamily "Romance") yields one text block holding its serialized form,
and parsing that payload back recovers exactly the four-field object: the
serialize-then-parse round trip is lossless. -/
theorem structured_roundtrip_lossless :
    polyglotStructured "bonjour" (fun _ => Except.ok frenchStub) =
      ⟨[ContentBlock.text (jsonStringifyPolyglotResponse frenchStub)]⟩ ∧
    parsePolyglotJson (jsonStringifyPolyglotResponse frenchStub) =
      some frenchStub := by
  constructor
  · rfl
  · set_option maxRecDepth 100000 in decide

/-- C5: the hello operation, invoked with no arguments, always returns exactly
one text block reading "world"; as a pure constant function it is
deterministic, idempotent, side-effect-free, and has no failure path. -/
theorem hello_returns_world (args : Unit) :
    hello args = ⟨[ContentBlock.text "world"]⟩ :=
  rfl

/-- C6: for every greeting string accepted as a string — the empty string and
non-Latin scripts included — both prompt templates embed the literal greeting
verbatim as a contiguous substring, and the handler consults the gateway only
at that prompt (so the greeting reaches the gateway inside the prompt, with no
local rejection, transliteration, or normalization). -/
theorem greeting_embedded_verbatim (greeting : String)
    (invoke invoke2 : String → Except ThrownValue MessageContent)
    (invokeS invokeS2 : String → Except ThrownValue PolyglotResponse) :
    (∃ pre post, polyglotPrompt greeting = pre ++ greeting ++ post) ∧
    (∃ pre post, polyglotStructuredPrompt greeting = pre ++ greeting ++ post) ∧
    (invoke (polyglotPrompt greeting) = invoke2 (polyglotPrompt greeting) →
      polyglot greeting invoke = polyglot greeting invoke2) ∧
    (invokeS (polyglotStructuredPrompt greeting) =
        invokeS2 (polyglotStructuredPrompt greeting) →
      polyglotStructured greeting invokeS = polyglotStructured greeting invokeS2) := by
  refine ⟨⟨_, _, rfl⟩, ⟨_, _, rfl⟩, fun h => ?_, fun h => ?_⟩
  · simp only [polyglot, h]
  · simp only [polyglotStructured, h]

/-- Witness for C6: the prompt built for the non-Latin greeting "こんにちは"
contains it verbatim, and two gateways that agree at that prompt yield the
same reply. -/
theorem greeting_embedded_verbatim_case :
    (∃ pre post, polyglotPrompt "こんにちは" = pre ++ "こんにちは" ++ post) ∧
    polyglot "こんにちは" (fun _ => Except.ok (MessageContent.str "世界")) =
      polyglot "こんにちは"
        (fun p => if p = polyglotPrompt "こんにちは"
          then Except.ok (MessageContent.str "世界")
          else Except.error ThrownValue.nonErrorValue) :=
  ⟨(greeting_embedded_verbatim "こんにちは"
      (fun _ => Except.ok (MessageContent.str "世界"))
      (fun _ => Except.ok (MessageContent.str "世界"))
      (fun _ => Except.error ThrownValue.nonErrorValue)
      (fun _ => Except.error ThrownValue.nonErrorValue)).1,
   (greeting_embedded_verbatim "こんにちは"
      (fun _ => Except.ok (MessageContent.str "世界"))
      (fun p => if p = polyglotPrompt "こんにちは"
        then Except.ok (MessageContent.str "世界")
        else Except.error ThrownValue.nonErrorValue)
      (fun _ => Except.error ThrownValue.nonErrorValue)
      (fun _ => Except.error ThrownValue.nonErrorValue)).2.2.1 (by simp)⟩

/-- C7 counterexample: the structured handler does not enforce the echo. A
schema-valid gateway response whose greeting field is "hola" is serialized
unchanged into a successful reply to the input "bonjour": parsing the payload
back yields a greeting field different from the input greeting. -/
theorem structured_echo_not_enforced :
    polyglotStructured "bonjour" (fun _ => Except.ok nonEchoStub) =
      ⟨[ContentBlock.text (jsonStringifyPolyglotResponse nonEchoStub)]⟩ ∧
    parsePolyglotJson (jsonStringifyPolyglotResponse nonEchoStub) =
      some nonEchoStub ∧
    nonEchoStub.greeting ≠ "bonjour" := by
  refine ⟨rfl, ?_, by decide⟩
  set_option maxRecDepth 100000 in decide

/-- C7 (amended): in every successful structured-variant reply the handler
serializes the gateway's validated PolyglotResult unchanged, so the greeting
field of the reply equals the greeting field the gateway returned; it equals
the input greeting exactly when the gateway echoes the input, which the
handler itself neither checks nor rewrites. -/
theorem structured_success_passthrough (greeting : String)
    (invoke : String → Except ThrownValue PolyglotResponse) (r : PolyglotResponse)
    (h : invoke (polyglotStructuredPrompt greeting) = Except.ok r) :
    polyglotStructured greeting invoke =
      ⟨[ContentBlock.text (jsonStringifyPolyglotResponse r)]⟩ := by
  simp [polyglotStructured, h]

/-- Witness for C7 (amended): an echoing gateway stub for "bonjour" yields the
serialization of its response object. -/
theorem structured_success_passthrough_case :
    polyglotStructured "bonjour" (fun _ => Except.ok frenchStub) =
      ⟨[ContentBlock.text (jsonStringifyPolyglotResponse frenchStub)]⟩ :=
  structured_success_passthrough "bonjour" (fun _ => Except.ok frenchStub)
    frenchStub rfl

/-- C8: a parsed model reply missing the languageFamily field — or any of the
four required fields — fails the polyglot response schema, the structured
gateway therefore raises SchemaValidationFailure instead of producing a
partially-filled success object, and the handler surfaces that error as an
error-text reply. -/
theorem missing_field_rejected (fields : List (String × Json)) (greeting : String)
    (h : jsonObjLookup fields "detectedLanguage" = none ∨
         jsonObjLookup fields "greeting" = none ∨
         jsonObjLookup fields "worldTranslation" = none ∨
         jsonObjLookup fields "languageFamily" = none) :
    polyglotResponseSchemaCheck (Json.obj fields) = none ∧
    completeStructured (Json.obj fields) =
      Except.error (ThrownValue.errorObj "SchemaValidationFailure") ∧
    polyglotStructured greeting (fun _ => completeStructured (Json.obj fields)) =
      ⟨[ContentBlock.text "Error calling LLM: SchemaValidationFailure"]⟩ := by
  have hc : polyglotResponseSchemaCheck (Json.obj fields) = none := by
    rcases h with h | h | h | h <;>
      cases h1 : jsonObjLookup fields "detectedLanguage" >>= jsonAsString <;>
      cases h2 : jsonObjLookup fields "greeting" >>= jsonAsString <;>
      cases h3 : jsonObjLookup fields "worldTranslation" >>= jsonAsString <;>
      simp_all [polyglotResponseSchemaCheck]
  have hg : completeStructured (Json.obj fields) =
      Except.error (ThrownValue.errorObj "SchemaValidationFailure") := by
    simp [completeStructured, hc]
  exact ⟨hc, hg, by simp [polyglotStructured, hg, errorMessageOf]⟩

/-- Witness for C8: a concrete reply missing only languageFamily, and one
missing only greeting, are each rejected by the schema and surface as the
error-text reply. -/
theorem missing_field_rejected_case :
    polyglotResponseSchemaCheck (Json.obj missingFamilyFields) = none ∧
    polyglotStructured "bonjour"
        (fun _ => completeStructured (Json.obj missingFamilyFields)) =
      ⟨[ContentBlock.text "Error calling LLM: SchemaValidationFailure"]⟩ ∧
    polyglotResponseSchemaCheck (Json.obj missingGreetingFields) = none ∧
    polyglotStructured "bonjour"
        (fun _ => completeStructured (Json.obj missingGreetingFields)) =
      ⟨[ContentBlock.text "Error calling LLM: SchemaValidationFailure"]⟩ :=
  ⟨(missing_field_rejected missingFamilyFields "bonjour"
      (Or.inr (Or.inr (Or.inr rfl)))).1,
   (missing_field_rejected missingFamilyFields "bonjour"
      (Or.inr (Or.inr (Or.inr rfl)))).2.2,
   (missing_field_rejected missingGreetingFields "bonjour"
      (Or.inr (Or.inl rfl))).1,
   (missing_field_rejected missingGreetingFields "bonjour"
      (Or.inr (Or.inl rfl))).2.2⟩

/-- C9: the startup notice is written by console.error, which targets the
standard error stream; the protocol reply stream is stdout, a different
channel, so no event of the startup log is on the protocol reply stream. -/
theorem startup_log_off_protocol_stream :
    mainStartupLog.map LogEvent.channel = [Channel.stderr] ∧
    protocolReplyChannel = Channel.stdout ∧
    Channel.stderr ≠ Channel.stdout :=
  ⟨rfl, rfl, by decide⟩

/-- C10: in the plain-text variant, a successful block-sequence response with
zero text-kind blocks still succeeds: the reply is one text block whose
payload is the empty string; an empty extraction is not treated as an error. -/
theorem no_text_blocks_empty_payload (greeting : String)
    (invoke : String → Except ThrownValue MessageContent) (bs : List MessageBlock)
    (hb : ∀ b ∈ bs, blockIsText b = false)
    (h : invoke (polyglotPrompt greeting) = Except.ok (MessageContent.blocks bs)) :
    polyglot greeting invoke = ⟨[ContentBlock.text ""]⟩ := by
  have hf : bs.filter blockIsText = [] := by
    simp only [List.filter_eq_nil_iff]
    intro b hbmem
    simp [hb b hbmem]
  simp [polyglot, h, responseTextOf, hf, String.join, jsTrim]

/-- Witness for C10: a block-sequence response holding only non-text blocks
yields the empty-string payload. -/
theorem no_text_blocks_empty_payload_case :
    polyglot "bonjour" (fun _ => Except.ok (MessageContent.blocks
        [MessageBlock.otherBlock "tool_use", MessageBlock.otherBlock "thinking"])) =
      ⟨[ContentBlock.text ""]⟩ :=
  no_text_blocks_empty_payload "bonjour" _
    [MessageBlock.otherBlock "tool_use", MessageBlock.otherBlock "thinking"]
    (by decide) rfl

end MCPHelloWorld
